import Mathlib

/-
Shallow embedding of the key-value store in src/kvs.py.

Modelling conventions, all taken from the source:
- A JSON value is represented by its serialized text (the output of
  json.dumps), since `create` serializes first and every later step of the
  store works on that text only; `read` returns json.loads of the stored
  text, which we represent by the stored text itself.
- Machine time (time.time()) is modelled by an explicit `now : Int`
  parameter, in whole seconds; the stored `timestamp` column is the `now`
  passed to `create`.
- Python exceptions become an explicit result: each operation returns the
  store state after the call together with `Except KvsError α`, so that
  the state left behind by a raising call stays observable.
- The sqlite statements are built by f-string interpolation in the source.
  The quoted splices of create/read/delete behave as ordinary lookups for
  quote-free text.  The unquoted splice in `_check_for_ttl`
  (WHERE key={key}) is modelled by `sqlBareIntCanon` below: the statement
  only prepares when the key lexes as a bare numeric literal, and the
  comparison against the TEXT column then uses the canonical decimal
  rendering of that literal.
- The sqlite connection commit is modelled by copying the table to a
  `durable` snapshot field; the advisory on-disk size read by `_db_size`
  (PRAGMA page_count * page_size) is an abstract `disk_size` field.
-/

/-- Errors raised by the store; the comments give the numeric codes the
source attaches to its Exception objects. -/
inductive KvsError where
  | keyTooLarge          -- code 101
  | valueTooLarge        -- code 102
  | capacityExceeded     -- code 103
  | duplicateKey         -- code 201
  | keyNotFound          -- code 202
  | concurrentAccess     -- code 10, raised by open on lock timeout
  | sqlOperationalError  -- sqlite3.OperationalError escaping a malformed interpolated query
deriving DecidableEq

/-- One row of the key_value_store table: columns (key, value, timestamp, ttl).
The value column holds serialized JSON text; ttl = -1 means infinite. -/
structure Row where
  key : String
  value : String
  timestamp : Int
  ttl : Int
deriving DecidableEq

/-- The observable state of one store handle: the table seen through its
connection, the durable snapshot of the last conn.commit(), the two
uncommitted counters of the commit batcher, and the advisory on-disk size
reported by PRAGMA page_count * page_size. -/
structure StoreState where
  table : List Row
  durable : List Row
  uncommitted_transactions : Nat
  uncommitted_size : Nat
  disk_size : Nat
deriving DecidableEq

deriving instance DecidableEq for Except

def DB_SIZE_LIMIT : Nat := 1024 * 1024 * 1024

def KEY_SIZE_LIMIT : Nat := 32

def VALUE_SIZE_LIMIT : Nat := 16 * 1024

def MAX_UNCOMMITTED_TRANSACTIONS_ALLOWED : Nat := 10000

def MAX_UNCOMMITTED_SIZE_ALLOWED : Nat := 15 * 1024 * 1025

/-- A store handle on a fresh, empty database file. -/
def freshStore : StoreState :=
  { table := [], durable := [], uncommitted_transactions := 0,
    uncommitted_size := 0, disk_size := 0 }

/-- Canonical decimal rendering of an all-digit string: leading zeros are
dropped, an all-zero string renders as 0. -/
def canonDigits (s : String) : String :=
  let t := s.toList.dropWhile (fun c => c = '0')
  if t.isEmpty then "0" else String.mk t

/-- How the unquoted splice `WHERE key={key}` of `_check_for_ttl` behaves in
sqlite.  The statement prepares only when the spliced text lexes as a bare
numeric literal; an all-digit key is read as a decimal INTEGER, and the
comparison with the TEXT column key applies TEXT affinity to it, i.e. the
stored text is compared with the canonical decimal rendering of the literal
(leading zeros dropped).  Every other splice (empty, identifier-like,
punctuation) fails to prepare and sqlite3 raises OperationalError, which
`none` stands for.  Digit strings whose canonical value leaves the int64
range are read as a REAL and render with an exponent, which never matches a
key the store can hold; they are mapped to such an unmatchable rendering. -/
def sqlBareIntCanon (key : String) : Option String :=
  if key ≠ "" ∧ key.toList.all (fun c => c.isDigit) then
    let c := canonDigits key
    if c.length ≤ 18 then some c else some "9.0e+99"
  else none

/-- The apostrophe character, written by code point to keep it out of the
surrounding text. -/
def squote : Char := Char.ofNat 39

/-- Whether a piece of text spliced into a single-quoted SQL string literal
unbalances the statement: any contained quote does (json.dumps escapes
double quotes and backslashes but leaves single quotes intact). -/
def hasSquote (s : String) : Bool := s.toList.any (fun c => c = squote)

/-- Embeds `KeyValueStore._check_for_ttl`: under the handle lock, execute
DELETE FROM key_value_store WHERE key={key} AND ttl != -1 AND {now} - timestamp > ttl.
The key is interpolated without quotes, so the statement only prepares for
keys that lex as bare numeric literals (see `sqlBareIntCanon`); when it does
prepare, it deletes the rows whose key column equals the canonical rendering
of the literal and whose finite ttl has elapsed. -/
def KeyValueStore.checkForTtl (st : StoreState) (now : Int) (key : String) :
    StoreState × Except KvsError Unit :=
  match sqlBareIntCanon key with
  | none => (st, Except.error KvsError.sqlOperationalError)
  | some canon =>
      ({ st with table := st.table.filter (fun r =>
          !(r.key == canon && r.ttl != -1 && decide (now - r.timestamp > r.ttl))) },
       Except.ok ())

/-- Embeds `KeyValueStore._commit`: increment the uncommitted transaction
counter; if it has reached MAX_UNCOMMITTED_TRANSACTIONS_ALLOWED or the
uncommitted size has reached MAX_UNCOMMITTED_SIZE_ALLOWED, run conn.commit()
under the lock and reset both counters to zero. -/
def KeyValueStore.commit (st : StoreState) : StoreState :=
  let st := { st with uncommitted_transactions := st.uncommitted_transactions + 1 }
  if st.uncommitted_transactions ≥ MAX_UNCOMMITTED_TRANSACTIONS_ALLOWED
      ∨ st.uncommitted_size ≥ MAX_UNCOMMITTED_SIZE_ALLOWED then
    { st with durable := st.table, uncommitted_transactions := 0, uncommitted_size := 0 }
  else st

/-- Embeds `KeyValueStore.create`: check the key length bound (code 101) and
the serialized value length bound (code 102); run the lazy TTL check; then,
under the handle lock, check for a duplicate key (code 201) and for the
database size limit (code 103) and insert the row; finally add the key and
value lengths to the uncommitted size and call `_commit`.  A key that
survives `checkForTtl` is all digits, so its quoted splices are well formed;
the spliced serialized value still breaks the INSERT when it carries a
quote. -/
def KeyValueStore.create (st : StoreState) (now : Int) (key string_value : String)
    (ttl : Int) : StoreState × Except KvsError Unit :=
  if key.length > KEY_SIZE_LIMIT then (st, Except.error KvsError.keyTooLarge)
  else if string_value.length ≥ VALUE_SIZE_LIMIT then (st, Except.error KvsError.valueTooLarge)
  else
    match KeyValueStore.checkForTtl st now key with
    | (st1, Except.error e) => (st1, Except.error e)
    | (st1, Except.ok _) =>
      if (st1.table.find? (fun r => r.key == key)).isSome then
        (st1, Except.error KvsError.duplicateKey)
      else if st1.disk_size ≥ DB_SIZE_LIMIT then
        (st1, Except.error KvsError.capacityExceeded)
      else if hasSquote string_value then
        (st1, Except.error KvsError.sqlOperationalError)
      else
        (KeyValueStore.commit
          { st1 with
            table := st1.table ++ [⟨key, string_value, now, ttl⟩],
            uncommitted_size := st1.uncommitted_size + key.length + string_value.length },
         Except.ok ())

/-- Embeds `KeyValueStore.read`: run the lazy TTL check, then look the key up
and return the stored serialized value, or raise code 202 when no row
exists.  The deserialization json.loads(record[1]) is represented by the
stored text itself. -/
def KeyValueStore.read (st : StoreState) (now : Int) (key : String) :
    StoreState × Except KvsError String :=
  match KeyValueStore.checkForTtl st now key with
  | (st1, Except.error e) => (st1, Except.error e)
  | (st1, Except.ok _) =>
    match st1.table.find? (fun r => r.key == key) with
    | none => (st1, Except.error KvsError.keyNotFound)
    | some r => (st1, Except.ok r.value)

/-- Embeds `KeyValueStore.delete`: run the lazy TTL check, then, under the
handle lock, look the key up (code 202 when absent) and delete its row;
finally call `_commit`. -/
def KeyValueStore.delete (st : StoreState) (now : Int) (key : String) :
    StoreState × Except KvsError Unit :=
  match KeyValueStore.checkForTtl st now key with
  | (st1, Except.error e) => (st1, Except.error e)
  | (st1, Except.ok _) =>
    match st1.table.find? (fun r => r.key == key) with
    | none => (st1, Except.error KvsError.keyNotFound)
    | some _ =>
      (KeyValueStore.commit { st1 with table := st1.table.filter (fun r => r.key != key) },
       Except.ok ())

/-- Embeds one iteration of the body of the `_periodic_commit` loop as it
stands in the source: take the handle lock and run conn.commit().  The two
uncommitted counters are not touched by the body.  (In the source the line
reads `with self._lock:)`, a Python syntax error; the embedded behaviour is
the evident statement sequence around it.) -/
def KeyValueStore.periodicCommitIter (st : StoreState) : StoreState :=
  { st with durable := st.table }

/-- A mutation handed to the commit batcher: a successful create or delete. -/
inductive Mutation where
  | mkCreate (key string_value : String) (ttl : Int)
  | mkDelete (key : String)

/-- Runs a mutation against the store. -/
def applyMutation (st : StoreState) (now : Int) : Mutation → StoreState × Except KvsError Unit
  | Mutation.mkCreate key sv ttl => KeyValueStore.create st now key sv ttl
  | Mutation.mkDelete key => KeyValueStore.delete st now key

/-- The byte footprint the source adds to the uncommitted size for a
mutation: create adds the key length plus the serialized value length
(line 142); delete adds nothing. -/
def footprint : Mutation → Nat
  | Mutation.mkCreate key sv _ => key.length + sv.length
  | Mutation.mkDelete _ => 0

/-- The process-wide registry `KeyValueStore._all_objects`, mapping resolved
file addresses to handles (represented by numeric identities), plus a
counter generating the identity of the next constructed handle. -/
structure OpenState where
  all_objects : List (String × Nat)
  next_handle : Nat
deriving DecidableEq

/-- What `KeyValueStore.open` produces: a handle, or the code-10 exception
raised when the FileLock acquisition times out. -/
inductive OpenOutcome where
  | handle (h : Nat)
  | concurrentAccess
deriving DecidableEq

/-- Result of one `open` call: its outcome, the registry state it leaves
behind, and whether it attempted to acquire the Exclusivity Lock
(system_lock.acquire). -/
structure OpenResult where
  outcome : OpenOutcome
  state : OpenState
  attempted_lock : Bool
deriving DecidableEq

def DEFAULT_DIRECTORY : String := ""

/-- Embeds the file address computation of `KeyValueStore.open`: the
directory is prepended when given and non-empty (Python truthiness of the
string), else the default directory is used. -/
def fileAddress (file_name : String) (file_directory : Option String) : String :=
  match file_directory with
  | some d => if d ≠ "" then d ++ file_name else DEFAULT_DIRECTORY ++ file_name
  | none => DEFAULT_DIRECTORY ++ file_name

/-- Embeds `KeyValueStore.open`: under the class lock, return the registered
handle for the resolved address when one exists (no lock attempted);
otherwise connect, ensure the table, attempt the Exclusivity Lock with a
one second timeout (the `lock_free` parameter says whether the file lock is
available to this process), and on success construct and register a new
handle; on timeout raise the code-10 exception with the registry
untouched. -/
def KeyValueStore.openStore (st : OpenState) (file_name : String)
    (file_directory : Option String) (lock_free : Bool) : OpenResult :=
  let file_address := fileAddress file_name file_directory
  match st.all_objects.lookup file_address with
  | some h => ⟨OpenOutcome.handle h, st, false⟩
  | none =>
    if lock_free then
      ⟨OpenOutcome.handle st.next_handle,
       ⟨(file_address, st.next_handle) :: st.all_objects, st.next_handle + 1⟩, true⟩
    else
      ⟨OpenOutcome.concurrentAccess, st, true⟩

/-- The store state reached by create freshStore 0 "012" "42" 1. -/
def st012 : StoreState :=
  { table := [⟨"012", "42", 0, 1⟩], durable := [], uncommitted_transactions := 1,
    uncommitted_size := 5, disk_size := 0 }

/-- A state with pending uncommitted work, used to evaluate the periodic
commit loop body. -/
def stPending : StoreState :=
  { table := [⟨"1", "42", 0, -1⟩], durable := [], uncommitted_transactions := 5,
    uncommitted_size := 100, disk_size := 0 }

/-- A 33-character key. -/
def key33 : String := String.mk (List.replicate 33 'a')

/-- A serialized value of exactly 16KiB. -/
def bigValue : String := String.mk (List.replicate VALUE_SIZE_LIMIT 'x')

/-- A store handle whose database file has reached the size limit. -/
def stFull : StoreState :=
  { freshStore with disk_size := DB_SIZE_LIMIT }

/-- The store state reached by create freshStore 0 "1" "42" (-1). -/
def stAfter1 : StoreState :=
  { table := [⟨"1", "42", 0, -1⟩], durable := [], uncommitted_transactions := 1,
    uncommitted_size := 3, disk_size := 0 }

/-- The lazy TTL check either fails with the sqlite error, leaving the state
untouched, or succeeds, only filtering the table. -/
theorem checkForTtl_total (st : StoreState) (now : Int) (key : String) :
    KeyValueStore.checkForTtl st now key = (st, Except.error KvsError.sqlOperationalError) ∨
    ∃ tbl : List Row, KeyValueStore.checkForTtl st now key =
      ({ st with table := tbl }, Except.ok ()) := by
  unfold KeyValueStore.checkForTtl
  rcases hc : sqlBareIntCanon key with _ | canon
  · exact Or.inl rfl
  · exact Or.inr ⟨_, rfl⟩

/-- A successful lazy TTL check does not change the counters or the disk
size. -/
theorem checkForTtl_ok_counters (st st1 : StoreState) (now : Int) (key : String)
    (h : KeyValueStore.checkForTtl st now key = (st1, Except.ok ())) :
    st1.uncommitted_transactions = st.uncommitted_transactions ∧
    st1.uncommitted_size = st.uncommitted_size ∧
    st1.disk_size = st.disk_size := by
  rcases checkForTtl_total st now key with hc | ⟨tbl, hc⟩ <;> rw [hc] at h
  · injection h with h1 h2
    exact Except.noConfusion h2
  · injection h with h1 h2
    subst h1
    exact ⟨rfl, rfl, rfl⟩

/-- The branch structure of `_commit` in one equation. -/
theorem commit_spec (st : StoreState) :
    KeyValueStore.commit st =
      if st.uncommitted_transactions + 1 ≥ MAX_UNCOMMITTED_TRANSACTIONS_ALLOWED
          ∨ st.uncommitted_size ≥ MAX_UNCOMMITTED_SIZE_ALLOWED then
        { st with durable := st.table, uncommitted_transactions := 0, uncommitted_size := 0 }
      else { st with uncommitted_transactions := st.uncommitted_transactions + 1 } := by
  unfold KeyValueStore.commit
  rfl

/-- C1: the claim says create then read round-trips for every key of at most
32 characters.  On the code, the very first step of create for the
3-character key "abc" is the lazy TTL statement WHERE key=abc, which sqlite
refuses to prepare (no such column: abc), so create raises
sqlite3.OperationalError and no create/read round-trip exists for that key,
although key and value are well inside the size bounds. -/
theorem c1_create_read_roundtrip_broken :
    KeyValueStore.create freshStore 0 "abc" "42" (-1)
      = (freshStore, Except.error KvsError.sqlOperationalError) ∧
    "abc".length ≤ KEY_SIZE_LIMIT ∧ "42".length < VALUE_SIZE_LIMIT := by
  decide

/-- C2: the claim says an expired key is lazily deleted on access, so read
and delete fail with KeyNotFoundError.  On the code, the key "012" is
created with ttl = 1 at time 0; at time 10 the row is expired, yet the lazy
TTL statement compares the TEXT key column with the unquoted literal 012,
canonically the text 12, matching nothing: read returns the stale value and
delete succeeds. -/
theorem c2_lazy_expiry_misses_expired_row :
    KeyValueStore.create freshStore 0 "012" "42" 1 = (st012, Except.ok ()) ∧
    (∀ r ∈ st012.table, r.ttl ≠ -1 ∧ (10 : Int) - r.timestamp > r.ttl) ∧
    KeyValueStore.read st012 10 "012" = (st012, Except.ok "42") ∧
    (KeyValueStore.delete st012 10 "012").2 = Except.ok () := by
  decide

/-- C3: the claim says delete on a key with no row fails with
KeyNotFoundError.  On the code, delete "abc" on a fresh store (which holds
no row at all) raises sqlite3.OperationalError out of the lazy TTL
statement before the existence check is ever reached. -/
theorem c3_delete_missing_key_wrong_error :
    freshStore.table.find? (fun r => r.key == "abc") = none ∧
    KeyValueStore.delete freshStore 0 "abc"
      = (freshStore, Except.error KvsError.sqlOperationalError) ∧
    KvsError.sqlOperationalError ≠ KvsError.keyNotFound := by
  decide

/-- C6: the claim says each iteration of the periodic commit loop flushes and
resets both counters to zero.  On the code, one iteration of the loop body
runs conn.commit() but leaves both uncommitted counters exactly as they
were. -/
theorem c6_periodic_commit_never_resets_counters :
    (KeyValueStore.periodicCommitIter stPending).durable = stPending.table ∧
    (KeyValueStore.periodicCommitIter stPending).uncommitted_transactions = 5 ∧
    (KeyValueStore.periodicCommitIter stPending).uncommitted_size = 100 := by
  decide

/-- The length of the 16KiB example value. -/
theorem bigValue_length : bigValue.length = VALUE_SIZE_LIMIT := by
  simp [bigValue, String.length_mk, List.length_replicate]

/-- An oversized key makes create fail on its first check. -/
theorem create_keyTooLarge (st : StoreState) (now : Int) (key sv : String) (ttl : Int)
    (h1 : key.length > KEY_SIZE_LIMIT) :
    KeyValueStore.create st now key sv ttl = (st, Except.error KvsError.keyTooLarge) := by
  unfold KeyValueStore.create
  rw [if_pos h1]

/-- An oversized serialized value makes create fail on its second check. -/
theorem create_valueTooLarge (st : StoreState) (now : Int) (key sv : String) (ttl : Int)
    (h1 : ¬ key.length > KEY_SIZE_LIMIT) (h2 : sv.length ≥ VALUE_SIZE_LIMIT) :
    KeyValueStore.create st now key sv ttl = (st, Except.error KvsError.valueTooLarge) := by
  unfold KeyValueStore.create
  rw [if_neg h1, if_pos h2]

/-- Once both validations pass, create can only end in the sqlite error, a
duplicate-key error, a capacity error, or success. -/
theorem create_outcome (st : StoreState) (now : Int) (key sv : String) (ttl : Int)
    (h1 : ¬ key.length > KEY_SIZE_LIMIT) (h2 : ¬ sv.length ≥ VALUE_SIZE_LIMIT) :
    (KeyValueStore.create st now key sv ttl).2 = Except.error KvsError.sqlOperationalError ∨
    (KeyValueStore.create st now key sv ttl).2 = Except.error KvsError.duplicateKey ∨
    (KeyValueStore.create st now key sv ttl).2 = Except.error KvsError.capacityExceeded ∨
    (KeyValueStore.create st now key sv ttl).2 = Except.ok () := by
  unfold KeyValueStore.create
  rw [if_neg h1, if_neg h2]
  rcases checkForTtl_total st now key with hc | ⟨tbl, hc⟩ <;> rw [hc]
  · exact Or.inl rfl
  · dsimp only
    split_ifs <;> simp

/-- C4 counterexample: for a 33-character key together with a 16KiB value,
create raises KeyTooLargeError, not ValueTooLargeError, although the
serialized value size is at least 16KiB — so the claimed biconditional
(ValueTooLargeError is raised iff the serialized size is at least 16KiB)
fails at this input. -/
theorem c4_value_iff_counterexample :
    bigValue.length ≥ VALUE_SIZE_LIMIT ∧
    (KeyValueStore.create freshStore 0 key33 bigValue (-1)).2
      = Except.error KvsError.keyTooLarge ∧
    KvsError.keyTooLarge ≠ KvsError.valueTooLarge := by
  refine ⟨bigValue_length ▸ Nat.le_refl _, ?_, by decide⟩
  rw [create_keyTooLarge freshStore 0 key33 bigValue (-1) (by decide)]

/-- C4 (amended): create raises KeyTooLargeError exactly when the key
exceeds 32 characters, and raises ValueTooLargeError exactly when the key
is within 32 characters and the serialized value is at least 16KiB — the
key length check runs first and shadows the value check.  In particular a
33-character key is rejected, a 16KiB value under a valid key is rejected,
and a 32-character key with a value under the bound passes both
validations. -/
theorem c4_validation_bounds (st : StoreState) (now : Int) (key sv : String) (ttl : Int) :
    ((KeyValueStore.create st now key sv ttl).2 = Except.error KvsError.keyTooLarge
        ↔ key.length > KEY_SIZE_LIMIT) ∧
    ((KeyValueStore.create st now key sv ttl).2 = Except.error KvsError.valueTooLarge
        ↔ key.length ≤ KEY_SIZE_LIMIT ∧ sv.length ≥ VALUE_SIZE_LIMIT) := by
  by_cases h1 : key.length > KEY_SIZE_LIMIT
  · rw [create_keyTooLarge st now key sv ttl h1]
    constructor
    · simpa using h1
    · simp
      omega
  · by_cases h2 : sv.length ≥ VALUE_SIZE_LIMIT
    · rw [create_valueTooLarge st now key sv ttl h1 h2]
      constructor
      · simp
        omega
      · simp
        omega
    · rcases create_outcome st now key sv ttl h1 h2 with h | h | h | h <;> rw [h] <;>
        constructor <;> simp <;> omega

/-- C5: every successful mutation runs through `_commit`: the transaction
counter is incremented by one and the mutation byte footprint (key length
plus serialized value length for create, nothing for delete) has been added
to the uncommitted size; when the incremented counter reaches
MAX_UNCOMMITTED_TRANSACTIONS_ALLOWED or the size reaches
MAX_UNCOMMITTED_SIZE_ALLOWED, the state is flushed (the durable snapshot
catches up with the table) and both counters are reset to zero; otherwise
both counters keep their accumulated values. -/
theorem c5_commit_batcher_thresholds (st st2 : StoreState) (now : Int) (m : Mutation)
    (h : applyMutation st now m = (st2, Except.ok ())) :
    if st.uncommitted_transactions + 1 ≥ MAX_UNCOMMITTED_TRANSACTIONS_ALLOWED
        ∨ st.uncommitted_size + footprint m ≥ MAX_UNCOMMITTED_SIZE_ALLOWED then
      st2.uncommitted_transactions = 0 ∧ st2.uncommitted_size = 0 ∧
      st2.durable = st2.table
    else
      st2.uncommitted_transactions = st.uncommitted_transactions + 1 ∧
      st2.uncommitted_size = st.uncommitted_size + footprint m := by
  cases m with
  | mkCreate key sv ttl =>
    unfold applyMutation at h
    dsimp only at h
    by_cases h1 : key.length > KEY_SIZE_LIMIT
    · rw [create_keyTooLarge st now key sv ttl h1] at h
      exact absurd h (by simp)
    · by_cases h2 : sv.length ≥ VALUE_SIZE_LIMIT
      · rw [create_valueTooLarge st now key sv ttl h1 h2] at h
        exact absurd h (by simp)
      · unfold KeyValueStore.create at h
        rw [if_neg h1, if_neg h2] at h
        rcases checkForTtl_total st now key with hc | ⟨tbl, hc⟩ <;> rw [hc] at h
        · exact absurd h (by simp)
        · dsimp only at h
          split_ifs at h
          · exact absurd h (by simp)
          · exact absurd h (by simp)
          · exact absurd h (by simp)
          · injection h with hA hB
            rw [← hA, commit_spec]
            dsimp only [footprint]
            split_ifs with hCg hCc hCc <;> dsimp only <;>
              first
              | omega
              | exact ⟨rfl, rfl, rfl⟩
  | mkDelete key =>
    unfold applyMutation at h
    dsimp only at h
    unfold KeyValueStore.delete at h
    rcases checkForTtl_total st now key with hc | ⟨tbl, hc⟩ <;> rw [hc] at h
    · exact absurd h (by simp)
    · dsimp only at h
      rcases hf : List.find? (fun r => r.key == key) tbl with _ | r <;> rw [hf] at h
      · exact absurd h (by simp)
      · injection h with hA hB
        rw [← hA, commit_spec]
        dsimp only [footprint]
        rw [Nat.add_zero]
        split_ifs with hCg hCc hCc <;> dsimp only <;>
          first
          | omega
          | exact ⟨rfl, rfl, rfl⟩

/-- Witness for C5 at the concrete mutation create "1" "42" on a fresh
store: neither threshold is reached, so the counters keep the accumulated
values. -/
theorem c5_commit_batcher_thresholds_witness :
    if freshStore.uncommitted_transactions + 1 ≥ MAX_UNCOMMITTED_TRANSACTIONS_ALLOWED
        ∨ freshStore.uncommitted_size + footprint (Mutation.mkCreate "1" "42" (-1))
          ≥ MAX_UNCOMMITTED_SIZE_ALLOWED then
      stAfter1.uncommitted_transactions = 0 ∧ stAfter1.uncommitted_size = 0 ∧
      stAfter1.durable = stAfter1.table
    else
      stAfter1.uncommitted_transactions = freshStore.uncommitted_transactions + 1 ∧
      stAfter1.uncommitted_size = freshStore.uncommitted_size
        + footprint (Mutation.mkCreate "1" "42" (-1)) :=
  c5_commit_batcher_thresholds freshStore stAfter1 0 (Mutation.mkCreate "1" "42" (-1))
    (by decide)

/-- C9: for a create call that has passed the key and value size
validations and whose lazy TTL statement and duplicate check have let it
reach the capacity check, an on-disk size at or above DB_SIZE_LIMIT at
check time makes create reject with CapacityExceededError, inserting
nothing and leaving the counters untouched; the check sits inside the same
locked section as the duplicate check, after it and before the insert. -/
theorem c9_size_guard_rejects (st st1 : StoreState) (now : Int) (key sv : String)
    (ttl : Int)
    (hkey : ¬ key.length > KEY_SIZE_LIMIT) (hval : ¬ sv.length ≥ VALUE_SIZE_LIMIT)
    (httl : KeyValueStore.checkForTtl st now key = (st1, Except.ok ()))
    (hdup : st1.table.find? (fun r => r.key == key) = none)
    (hsize : st1.disk_size ≥ DB_SIZE_LIMIT) :
    KeyValueStore.create st now key sv ttl = (st1, Except.error KvsError.capacityExceeded) := by
  unfold KeyValueStore.create
  rw [if_neg hkey, if_neg hval, httl]
  dsimp only
  rw [hdup]
  dsimp only [Option.isSome_none]
  rw [if_neg (by simp), if_pos hsize]

/-- Witness for C9: a store whose file has reached the limit rejects the
key 7 with the capacity error. -/
theorem c9_size_guard_rejects_witness :
    KeyValueStore.create stFull 0 "7" "42" (-1)
      = (stFull, Except.error KvsError.capacityExceeded) :=
  c9_size_guard_rejects stFull stFull 0 "7" "42" (-1) (by decide) (by decide)
    (by decide) (by decide) (by decide)

/-- C10: when create fails the key size validation or the value size
validation, the store state is entirely unchanged — the two validations run
before the lazy TTL check, so such a call deletes no expired row, moves no
counter and inserts nothing. -/
theorem c10_failed_validation_leaves_state (st st2 : StoreState) (now : Int)
    (key sv : String) (ttl : Int) (e : KvsError)
    (h : KeyValueStore.create st now key sv ttl = (st2, Except.error e))
    (he : e = KvsError.keyTooLarge ∨ e = KvsError.valueTooLarge) :
    st2 = st := by
  by_cases h1 : key.length > KEY_SIZE_LIMIT
  · rw [create_keyTooLarge st now key sv ttl h1] at h
    injection h with hA hB
    exact hA.symm
  · by_cases h2 : sv.length ≥ VALUE_SIZE_LIMIT
    · rw [create_valueTooLarge st now key sv ttl h1 h2] at h
      injection h with hA hB
      exact hA.symm
    · exfalso
      rcases create_outcome st now key sv ttl h1 h2 with hx | hx | hx | hx <;>
        rw [h] at hx <;> rcases he with he | he <;> subst he <;> simp at hx

/-- Witness for C10: the oversized 33-character key leaves the fresh store
untouched. -/
theorem c10_failed_validation_leaves_state_witness : freshStore = freshStore :=
  c10_failed_validation_leaves_state freshStore freshStore 0 key33 "42" (-1)
    KvsError.keyTooLarge
    (create_keyTooLarge freshStore 0 key33 "42" (-1) (by decide))
    (Or.inl rfl)

/-- C7: open is idempotent per resolved path within the process.  A first
open of an unregistered path with the file lock free registers a fresh
handle; a second open resolving to the same path — whatever the state of
the file lock — returns that very handle, leaves the registry unchanged and
does not attempt to acquire the Exclusivity Lock again. -/
theorem c7_second_open_returns_same_handle (st : OpenState) (n1 n2 : String)
    (d1 d2 : Option String) (lock2 : Bool)
    (hfresh : st.all_objects.lookup (fileAddress n1 d1) = none)
    (hsame : fileAddress n2 d2 = fileAddress n1 d1) :
    KeyValueStore.openStore st n1 d1 true =
      ⟨OpenOutcome.handle st.next_handle,
       ⟨(fileAddress n1 d1, st.next_handle) :: st.all_objects, st.next_handle + 1⟩, true⟩ ∧
    KeyValueStore.openStore
        ⟨(fileAddress n1 d1, st.next_handle) :: st.all_objects, st.next_handle + 1⟩ n2 d2 lock2 =
      ⟨OpenOutcome.handle st.next_handle,
       ⟨(fileAddress n1 d1, st.next_handle) :: st.all_objects, st.next_handle + 1⟩, false⟩ := by
  constructor
  · unfold KeyValueStore.openStore
    dsimp only
    rw [hfresh]
    rfl
  · unfold KeyValueStore.openStore
    dsimp only
    rw [hsame]
    simp [List.lookup]

/-- Witness for C7: two opens of the file test, the second through an empty
directory string resolving to the same path and with the lock held
elsewhere, return the same handle without a second lock attempt. -/
theorem c7_second_open_returns_same_handle_witness :
    KeyValueStore.openStore ⟨[], 0⟩ "test" none true =
      ⟨OpenOutcome.handle 0, ⟨[("test", 0)], 1⟩, true⟩ ∧
    KeyValueStore.openStore ⟨[("test", 0)], 1⟩ "test" (some "") false =
      ⟨OpenOutcome.handle 0, ⟨[("test", 0)], 1⟩, false⟩ :=
  c7_second_open_returns_same_handle ⟨[], 0⟩ "test" "test" none (some "") false rfl rfl

/-- C8: when the path is not yet registered and the Exclusivity Lock cannot
be acquired within the timeout, open raises the concurrent-access error
after attempting the lock, and the registry is unchanged: in particular no
handle is registered for that path. -/
theorem c8_lock_timeout_no_registration (st : OpenState) (n : String) (d : Option String)
    (hfresh : st.all_objects.lookup (fileAddress n d) = none) :
    KeyValueStore.openStore st n d false = ⟨OpenOutcome.concurrentAccess, st, true⟩ ∧
    (KeyValueStore.openStore st n d false).state.all_objects.lookup (fileAddress n d)
      = none := by
  have h : KeyValueStore.openStore st n d false = ⟨OpenOutcome.concurrentAccess, st, true⟩ := by
    unfold KeyValueStore.openStore
    dsimp only
    rw [hfresh]
    rfl
  exact ⟨h, by rw [h]; exact hfresh⟩

/-- Witness for C8: opening the unregistered file test while another
process holds the lock raises the error and registers nothing. -/
theorem c8_lock_timeout_no_registration_witness :
    KeyValueStore.openStore ⟨[], 0⟩ "test" none false
      = ⟨OpenOutcome.concurrentAccess, ⟨[], 0⟩, true⟩ ∧
    (KeyValueStore.openStore ⟨[], 0⟩ "test" none false).state.all_objects.lookup
        (fileAddress "test" none) = none :=
  c8_lock_timeout_no_registration ⟨[], 0⟩ "test" none rfl
